import Mathlib

/-!
Verification of `src/backup_utility.c`, a command-line file copier.

The program is embedded shallowly:

* bytes are `Nat`, file contents are `List Nat`;
* the filesystem is a map from paths (`String`) to optional contents,
  together with a writability predicate (whether `fopen(path, "wb")`
  succeeds) and the current OS error text (what `strerror(errno)` /
  `perror` would append to a message);
* the `while`-loop of `backup_file` (lines 28-30 of the C source) is the
  recursive function `runLoop`, parametrized by a `Schedule` describing
  how many bytes each `fread` / `fwrite` call actually transfers, so that
  short reads (I/O errors reported by `fread` as a zero count) and short
  writes (`fwrite` persisting fewer bytes than requested) can be modelled;
  the fault-free instantiation is `fullSched`;
* `backup_fileWith` / `cMainWith` mirror `backup_file` / `main` of the C
  source statement by statement; `backup_file` / `cMain` are their
  fault-free instantiations.
-/

/-- `sizeof(buffer)` in `backup_file`: the fixed 1024-byte transfer buffer. -/
def BUFFER_SIZE : Nat := 1024

/-- The filesystem state visible to the program.

`files p = some c` means path `p` can be opened with `fopen(p, "rb")` and
currently holds bytes `c`; `files p = none` means `fopen(p, "rb")` fails
(missing file, permission denied, ...).  `writable p` tells whether
`fopen(p, "wb")` succeeds; when it does, the file at `p` is created or
truncated to empty.  `osError` is the text `perror` appends after the
caller-supplied message. -/
structure FileSystem where
  files : String → Option (List Nat)
  writable : String → Bool
  osError : String

/-- Replace (or create) the contents of the file at path `p`. -/
def FileSystem.setFile (fs : FileSystem) (p : String) (c : List Nat) : FileSystem :=
  { fs with files := fun q => if q = p then some c else fs.files q }

/-- Outcomes of the individual `fread` / `fwrite` calls of the copy loop.

`readBytes iter avail` is the count returned by the `fread` of iteration
`iter` when `avail` bytes remain before end-of-file (capped at `avail`;
a value below `avail` models an I/O error, which `fread` reports only
through a short count).  `writeBytes iter req` is the count returned by
the corresponding `fwrite` when `req` bytes were requested (capped at
`req`; a smaller value is a short write).  The C code inspects the read
count but ignores the write count entirely. -/
structure Schedule where
  readBytes : Nat → Nat → Nat
  writeBytes : Nat → Nat → Nat

/-- Fault-free I/O: every `fread` returns everything available (up to the
buffer size) and every `fwrite` persists all requested bytes. -/
def fullSched : Schedule :=
  ⟨fun _ avail => avail, fun _ req => req⟩

/-- Bytes actually delivered by the `fread` of iteration `iter` when `len`
bytes of the source remain: the scheduled count, capped by what is
available, which is itself capped by the 1024-byte buffer. -/
def readCount (sc : Schedule) (iter len : Nat) : Nat :=
  min (sc.readBytes iter (min BUFFER_SIZE len)) (min BUFFER_SIZE len)

/-- Bytes actually persisted by the `fwrite` of iteration `iter` when `req`
bytes were requested. -/
def writeCount (sc : Schedule) (iter req : Nat) : Nat :=
  min (sc.writeBytes iter req) req

/-- The copy loop of `backup_file` (C source lines 28-30):

    while ((bytesRead = fread(buffer, 1, sizeof(buffer), srcFile)) > 0) {
        fwrite(buffer, 1, bytesRead, destFile);
    }

Given the bytes of the source not yet consumed, returns the bytes the
loop appends to the destination, the total bytes read and the total bytes
written.  The loop stops exactly when `fread` returns `0`; the return
value of `fwrite` is ignored, so only the first `writeCount` bytes of
each chunk reach the destination and the loop continues regardless. -/
def runLoop (sc : Schedule) (iter : Nat) (src : List Nat) : List Nat × Nat × Nat :=
  if h : readCount sc iter src.length = 0 then ([], 0, 0)
  else
    let n := readCount sc iter src.length
    let rest := runLoop sc (iter + 1) (src.drop n)
    ((src.take n).take (writeCount sc iter n) ++ rest.1,
     n + rest.2.1,
     writeCount sc iter n + rest.2.2)
termination_by src.length
decreasing_by
  have h1 : readCount sc iter src.length ≤ src.length :=
    le_trans (min_le_right _ _) (min_le_right _ _)
  have h2 : 0 < readCount sc iter src.length := Nat.pos_of_ne_zero h
  simp only [List.length_drop]
  omega

theorem readCount_full (iter len : Nat) :
    readCount fullSched iter len = min BUFFER_SIZE len := by
  simp [readCount, fullSched]

theorem writeCount_full (iter req : Nat) :
    writeCount fullSched iter req = req := by
  simp [writeCount, fullSched]

theorem runLoop_nil (sc : Schedule) (iter : Nat) :
    runLoop sc iter [] = ([], 0, 0) := by
  rw [runLoop]
  simp [readCount]

/-- Under fault-free I/O the loop reproduces the source exactly and the
read and write totals both equal its length. -/
theorem runLoop_full_aux :
    ∀ (n : Nat) (src : List Nat), src.length ≤ n → ∀ iter : Nat,
      runLoop fullSched iter src = (src, src.length, src.length) := by
  intro n
  induction n with
  | zero =>
    intro src h iter
    have hnil : src = [] := List.eq_nil_of_length_eq_zero (Nat.le_zero.mp h)
    subst hnil
    simp [runLoop_nil]
  | succ n ih =>
    intro src h iter
    rcases eq_or_ne src [] with rfl | hne
    · simp [runLoop_nil]
    · have hlen : 0 < src.length := List.length_pos.mpr hne
      have hmin : 0 < min BUFFER_SIZE src.length := by
        have : 0 < BUFFER_SIZE := by norm_num [BUFFER_SIZE]
        omega
      have hrc : readCount fullSched iter src.length ≠ 0 := by
        rw [readCount_full]
        omega
      have hle : min BUFFER_SIZE src.length ≤ src.length := min_le_right _ _
      have hdrop : (src.drop (min BUFFER_SIZE src.length)).length ≤ n := by
        simp only [List.length_drop]
        omega
      rw [runLoop, dif_neg hrc]
      simp only [readCount_full, writeCount_full,
        ih (src.drop (min BUFFER_SIZE src.length)) hdrop (iter + 1)]
      refine Prod.ext ?_ (Prod.ext ?_ ?_)
      · simp [List.take_take, List.take_append_drop]
      · simp only [List.length_drop]
        omega
      · simp only [List.length_drop]
        omega

theorem runLoop_full (src : List Nat) (iter : Nat) :
    runLoop fullSched iter src = (src, src.length, src.length) :=
  runLoop_full_aux src.length src le_rfl iter

/-- What `backup_file` leaves behind when control returns to the caller or
the process exits.  `failed = some msg` means the function called
`perror` (producing `msg` on standard error) and then `exit(EXIT_FAILURE)`;
`failed = none` means it returned normally.  `srcOpenAtExit` /
`destOpenAtExit` record whether the corresponding `FILE*` handle was still
open at that moment (the C code closes both on every path, via the
explicit `fclose` calls). -/
structure BackupOutcome where
  fs : FileSystem
  failed : Option String
  srcOpenAtExit : Bool
  destOpenAtExit : Bool

/-- `backup_file(source, destination)` (C source lines 10-34), statement by
statement, under the I/O schedule `sc`:

* `fopen(source, "rb")` fails iff `fs.files source = none`; on failure
  `perror("Failed to open source file")` then `exit(EXIT_FAILURE)`,
  touching nothing;
* `fopen(destination, "wb")` fails iff `¬ fs.writable destination`; on
  failure `perror("Failed to open destination file")`, `fclose(srcFile)`
  (so the source handle is closed at exit) and `exit(EXIT_FAILURE)`; on
  success the destination file is created or truncated to empty;
* the loop then reads through the source handle from the filesystem as it
  stands after the truncation (so a destination aliasing the source reads
  the truncated contents) and appends to the destination the bytes
  actually written, `(runLoop sc 0 contents).1`;
* `fclose(srcFile); fclose(destFile)` close both handles before return. -/
def backup_fileWith (sc : Schedule) (fs : FileSystem) (source destination : String) :
    BackupOutcome :=
  match fs.files source with
  | none => ⟨fs, some ("Failed to open source file: " ++ fs.osError), false, false⟩
  | some _ =>
    if fs.writable destination then
      let fsTrunc := fs.setFile destination []
      let contents := (fsTrunc.files source).getD []
      ⟨fsTrunc.setFile destination (runLoop sc 0 contents).1, none, false, false⟩
    else
      ⟨fs, some ("Failed to open destination file: " ++ fs.osError), false, false⟩

/-- `backup_file` under fault-free I/O. -/
def backup_file (fs : FileSystem) (source destination : String) : BackupOutcome :=
  backup_fileWith fullSched fs source destination

/-- Observable result of one run of the process: final filesystem, exit
code, the lines printed to standard output and standard error, and which
file handles were still open when the process terminated. -/
structure ProcResult where
  fs : FileSystem
  exitCode : Nat
  stdoutLines : List String
  stderrLines : List String
  srcOpenAtExit : Bool
  destOpenAtExit : Bool

/-- The usage message `main` prints when `argc != 3`. -/
def usageMsg (progName : String) : String :=
  "Usage: " ++ progName ++ " <source_file> <destination_file>"

/-- The body of `main` once the argument count has been validated (C source
lines 42-44): run `backup_file`; if it exits the process, its `perror`
message is on standard error and the exit code is `EXIT_FAILURE`; if it
returns, the success message naming both paths goes to standard output and
`main` returns `EXIT_SUCCESS`. -/
def runAndReport (sc : Schedule) (fs : FileSystem) (source destination : String) :
    ProcResult :=
  let b := backup_fileWith sc fs source destination
  match b.failed with
  | some msg => ⟨b.fs, 1, [], [msg], b.srcOpenAtExit, b.destOpenAtExit⟩
  | none =>
    ⟨b.fs, 0, ["Backup successful from " ++ source ++ " to " ++ destination], [],
      b.srcOpenAtExit, b.destOpenAtExit⟩

/-- `main` (C source lines 36-45) under the I/O schedule `sc`.  `args` is
`argv[1..]`, so the C check `argc != 3` is `args` not being exactly two
strings; in that case the usage message goes to standard error and the
process returns `EXIT_FAILURE` without touching any file.  Otherwise the
copy runs and its result is reported. -/
def cMainWith (sc : Schedule) (fs : FileSystem) (progName : String) (args : List String) :
    ProcResult :=
  match args with
  | [source, destination] => runAndReport sc fs source destination
  | _ => ⟨fs, 1, [], [usageMsg progName], false, false⟩

theorem cMainWith_pair (sc : Schedule) (fs : FileSystem)
    (progName source destination : String) :
    cMainWith sc fs progName [source, destination] = runAndReport sc fs source destination :=
  rfl

/-- `main` under fault-free I/O. -/
def cMain (fs : FileSystem) (progName : String) (args : List String) : ProcResult :=
  cMainWith fullSched fs progName args

/-- A sample filesystem: one readable three-byte file, everything writable. -/
def sampleFS : FileSystem :=
  ⟨fun p => if p = "notes.txt" then some [10, 20, 30] else none,
   fun _ => true, "No such file or directory"⟩

/-- A filesystem whose only file is unreadable to nobody but holds nothing:
every path is absent, every path is writable. -/
def emptyFS : FileSystem :=
  ⟨fun _ => none, fun _ => true, "No such file or directory"⟩

/-- A read-only filesystem: one one-byte file, nothing writable. -/
def roFS : FileSystem :=
  ⟨fun p => if p = "notes.txt" then some [1] else none,
   fun _ => false, "Permission denied"⟩

/-- A filesystem where the destination pre-exists and is longer than the
source: `a.txt` holds two bytes, `b.txt` holds four. -/
def overwriteFS : FileSystem :=
  ⟨fun p => if p = "a.txt" then some [1, 2]
            else if p = "b.txt" then some [3, 4, 5, 6] else none,
   fun _ => true, "No such file or directory"⟩

/-- Claim C1: for every source file (any size, empty included), if the copy
succeeds then the destination's contents are byte-identical to the
source's contents and its size equals the source's size.  (`source ≠
destination` scopes the statement to genuinely two files; the embedding
follows the C program, whose destination `fopen(..., "wb")` truncates
before the loop reads.) -/
theorem copy_roundtrip (fs : FileSystem) (source destination : String) (c : List Nat)
    (hsrc : fs.files source = some c) (hne : source ≠ destination)
    (hok : (backup_file fs source destination).failed = none) :
    (backup_file fs source destination).fs.files destination = some c ∧
    ((backup_file fs source destination).fs.files destination).map List.length
      = some c.length := by
  unfold backup_file backup_fileWith at hok ⊢
  rw [hsrc] at hok ⊢
  by_cases hw : fs.writable destination
  · simp only [hw, if_true] at hok ⊢
    simp [FileSystem.setFile, hne, hsrc, runLoop_full]
  · simp [hw] at hok

theorem copy_roundtrip_witness :
    sampleFS.files "notes.txt" = some [10, 20, 30] ∧
    ("notes.txt" : String) ≠ "backup.txt" ∧
    (backup_file sampleFS "notes.txt" "backup.txt").failed = none ∧
    (backup_file sampleFS "notes.txt" "backup.txt").fs.files "backup.txt"
      = some [10, 20, 30] ∧
    ((backup_file sampleFS "notes.txt" "backup.txt").fs.files "backup.txt").map List.length
      = some 3 :=
  have h1 : sampleFS.files "notes.txt" = some [10, 20, 30] := by simp [sampleFS]
  have h2 : ("notes.txt" : String) ≠ "backup.txt" := by decide
  have h3 : (backup_file sampleFS "notes.txt" "backup.txt").failed = none := by
    simp [backup_file, backup_fileWith, sampleFS]
  have h4 := copy_roundtrip sampleFS "notes.txt" "backup.txt" [10, 20, 30] h1 h2 h3
  ⟨h1, h2, h3, h4.1, h4.2⟩

/-- Claim C4: when the source path cannot be opened, the program exits with
code 1, reports the source-open failure together with the OS error text on
standard error, and the whole filesystem — in particular the destination
file — is left untouched. -/
theorem source_open_failure (fs : FileSystem) (progName source destination : String)
    (h : fs.files source = none) :
    (cMain fs progName [source, destination]).exitCode = 1 ∧
    (cMain fs progName [source, destination]).stderrLines
      = ["Failed to open source file: " ++ fs.osError] ∧
    (cMain fs progName [source, destination]).fs.files destination
      = fs.files destination ∧
    (cMain fs progName [source, destination]).fs = fs := by
  unfold cMain
  rw [cMainWith_pair]
  unfold runAndReport backup_fileWith
  rw [h]
  simp

theorem source_open_failure_witness :
    emptyFS.files "missing.txt" = none ∧
    (cMain emptyFS "backup" ["missing.txt", "b.txt"]).exitCode = 1 ∧
    (cMain emptyFS "backup" ["missing.txt", "b.txt"]).stderrLines
      = ["Failed to open source file: " ++ emptyFS.osError] ∧
    (cMain emptyFS "backup" ["missing.txt", "b.txt"]).fs.files "b.txt"
      = emptyFS.files "b.txt" ∧
    (cMain emptyFS "backup" ["missing.txt", "b.txt"]).fs = emptyFS :=
  have h1 : emptyFS.files "missing.txt" = none := rfl
  have h4 := source_open_failure emptyFS "backup" "missing.txt" "b.txt" h1
  ⟨h1, h4.1, h4.2.1, h4.2.2.1, h4.2.2.2⟩

/-- Claim C5: when the source opens but the destination cannot be opened,
the program exits with code 1 reporting the destination-open failure with
the OS error text, the source handle is closed before the failure exit,
and the source file (indeed the whole filesystem) is unmodified. -/
theorem dest_open_failure (fs : FileSystem) (progName source destination : String)
    (c : List Nat) (hs : fs.files source = some c)
    (hw : fs.writable destination = false) :
    (cMain fs progName [source, destination]).exitCode = 1 ∧
    (cMain fs progName [source, destination]).stderrLines
      = ["Failed to open destination file: " ++ fs.osError] ∧
    (cMain fs progName [source, destination]).srcOpenAtExit = false ∧
    (cMain fs progName [source, destination]).fs.files source = fs.files source ∧
    (cMain fs progName [source, destination]).fs = fs := by
  unfold cMain
  rw [cMainWith_pair]
  unfold runAndReport backup_fileWith
  rw [hs]
  simp [hw, hs]

theorem dest_open_failure_witness :
    roFS.files "notes.txt" = some [1] ∧
    roFS.writable "b.txt" = false ∧
    (cMain roFS "backup" ["notes.txt", "b.txt"]).exitCode = 1 ∧
    (cMain roFS "backup" ["notes.txt", "b.txt"]).stderrLines
      = ["Failed to open destination file: " ++ roFS.osError] ∧
    (cMain roFS "backup" ["notes.txt", "b.txt"]).srcOpenAtExit = false ∧
    (cMain roFS "backup" ["notes.txt", "b.txt"]).fs.files "notes.txt"
      = roFS.files "notes.txt" :=
  have h1 : roFS.files "notes.txt" = some [1] := by simp [roFS]
  have h2 : roFS.writable "b.txt" = false := rfl
  have h4 := dest_open_failure roFS "backup" "notes.txt" "b.txt" [1] h1 h2
  ⟨h1, h2, h4.1, h4.2.1, h4.2.2.1, h4.2.2.2.1⟩

/-- Claim C7: when the destination pre-exists with content strictly longer
than the source, a successful copy leaves the destination with exactly the
source's contents, hence exactly the source's length — old trailing bytes
are gone and nothing is appended (truncate-on-open semantics of
`fopen(destination, "wb")`). -/
theorem overwrite_truncates (fs : FileSystem) (source destination : String)
    (c old : List Nat) (hsrc : fs.files source = some c)
    (hdst : fs.files destination = some old) (hlong : c.length < old.length)
    (hw : fs.writable destination = true) (hne : source ≠ destination) :
    (backup_file fs source destination).failed = none ∧
    (backup_file fs source destination).fs.files destination = some c ∧
    ((backup_file fs source destination).fs.files destination).map List.length
      = some c.length := by
  unfold backup_file backup_fileWith
  rw [hsrc]
  simp only [hw, if_true]
  simp [FileSystem.setFile, hne, hsrc, runLoop_full]

theorem overwrite_truncates_witness :
    overwriteFS.files "a.txt" = some [1, 2] ∧
    overwriteFS.files "b.txt" = some [3, 4, 5, 6] ∧
    (2 : Nat) < 4 ∧
    overwriteFS.writable "b.txt" = true ∧
    ("a.txt" : String) ≠ "b.txt" ∧
    (backup_file overwriteFS "a.txt" "b.txt").failed = none ∧
    (backup_file overwriteFS "a.txt" "b.txt").fs.files "b.txt" = some [1, 2] ∧
    ((backup_file overwriteFS "a.txt" "b.txt").fs.files "b.txt").map List.length
      = some 2 :=
  have h1 : overwriteFS.files "a.txt" = some [1, 2] := by simp [overwriteFS]
  have h2 : overwriteFS.files "b.txt" = some [3, 4, 5, 6] := by simp [overwriteFS]
  have h3 : ([1, 2] : List Nat).length < ([3, 4, 5, 6] : List Nat).length := by decide
  have h4 : overwriteFS.writable "b.txt" = true := rfl
  have h5 : ("a.txt" : String) ≠ "b.txt" := by decide
  have h6 := overwrite_truncates overwriteFS "a.txt" "b.txt" [1, 2] [3, 4, 5, 6]
    h1 h2 h3 h4 h5
  ⟨h1, h2, h3, h4, h5, h6.1, h6.2.1, h6.2.2⟩

/-- Claim C6: with an argument count other than exactly two positional
arguments, the program prints the usage message to standard error, exits
with a non-zero status and performs no file I/O (the filesystem is
returned exactly as it was, nothing on standard output). -/
theorem usage_on_bad_argc (fs : FileSystem) (progName : String) (args : List String)
    (h : args.length ≠ 2) :
    cMain fs progName args = ⟨fs, 1, [], [usageMsg progName], false, false⟩ := by
  unfold cMain cMainWith
  rcases args with _ | ⟨a, _ | ⟨b, _ | ⟨c, rest⟩⟩⟩
  · rfl
  · rfl
  · exact absurd rfl h
  · rfl

theorem usage_on_bad_argc_witness :
    ([] : List String).length ≠ 2 ∧
    cMain sampleFS "backup" [] = ⟨sampleFS, 1, [], [usageMsg "backup"], false, false⟩ :=
  ⟨by decide, usage_on_bad_argc sampleFS "backup" [] (by decide)⟩

/-- Claim C8: for a source whose size is an exact multiple of the 1024-byte
buffer, the loop (which stops exactly when a read delivers zero bytes)
produces output identical to the source in content and size, and reads and
writes exactly the source's byte count — no off-by-one at the boundary. -/
theorem buffer_boundary_copy (src : List Nat) (h : src.length % BUFFER_SIZE = 0) :
    (runLoop fullSched 0 src).1 = src ∧
    (runLoop fullSched 0 src).1.length = src.length ∧
    (runLoop fullSched 0 src).2.1 = src.length ∧
    (runLoop fullSched 0 src).2.2 = src.length := by
  simp [runLoop_full]

theorem buffer_boundary_copy_witness :
    (List.replicate 2048 (7 : Nat)).length % BUFFER_SIZE = 0 ∧
    (runLoop fullSched 0 (List.replicate 2048 (7 : Nat))).1
      = List.replicate 2048 (7 : Nat) ∧
    (runLoop fullSched 0 (List.replicate 2048 (7 : Nat))).1.length
      = (List.replicate 2048 (7 : Nat)).length :=
  have h : (List.replicate 2048 (7 : Nat)).length % BUFFER_SIZE = 0 := by
    rw [List.length_replicate]
    decide
  have h2 := buffer_boundary_copy (List.replicate 2048 (7 : Nat)) h
  ⟨h, h2.1, h2.2.1⟩

/-- Claim C9: whenever `backup_file` returns (the copy succeeded), `main`
returns `EXIT_SUCCESS` (exit code 0) and prints to standard output the
success message naming both the source and the destination path. -/
theorem success_report (fs : FileSystem) (progName source destination : String)
    (h : (backup_file fs source destination).failed = none) :
    (cMain fs progName [source, destination]).exitCode = 0 ∧
    (cMain fs progName [source, destination]).stdoutLines
      = ["Backup successful from " ++ source ++ " to " ++ destination] := by
  have h' : (backup_fileWith fullSched fs source destination).failed = none := h
  unfold cMain
  rw [cMainWith_pair]
  simp only [runAndReport, h']
  simp

theorem success_report_witness :
    (backup_file sampleFS "notes.txt" "copy.txt").failed = none ∧
    (cMain sampleFS "backup" ["notes.txt", "copy.txt"]).exitCode = 0 ∧
    (cMain sampleFS "backup" ["notes.txt", "copy.txt"]).stdoutLines
      = ["Backup successful from " ++ "notes.txt" ++ " to " ++ "copy.txt"] :=
  have h : (backup_file sampleFS "notes.txt" "copy.txt").failed = none := by
    simp [backup_file, backup_fileWith, sampleFS]
  have h2 := success_report sampleFS "backup" "notes.txt" "copy.txt" h
  ⟨h, h2.1, h2.2⟩

/-- One iteration of the copy loop under fault-free I/O, acting on the pair
(bytes written to the destination so far, source bytes not yet read):
`fread` delivers the next `min 1024 remaining` bytes; a zero-byte read
means the loop has already terminated, so the state is left unchanged;
otherwise the chunk is appended to the destination. -/
def loopStep (st : List Nat × List Nat) : List Nat × List Nat :=
  if st.2.take BUFFER_SIZE = [] then st
  else (st.1 ++ st.2.take BUFFER_SIZE, st.2.drop BUFFER_SIZE)

/-- State of the copy loop after `k` iterations on source `src`, starting
from an empty destination and the whole source unread. -/
def loopIter (src : List Nat) (k : Nat) : List Nat × List Nat :=
  Nat.iterate loopStep k ([], src)

theorem loopIter_append (src : List Nat) :
    ∀ k : Nat, (loopIter src k).1 ++ (loopIter src k).2 = src := by
  intro k
  induction k with
  | zero => rfl
  | succ k ih =>
    have hstep : loopIter src (k + 1) = loopStep (loopIter src k) :=
      Function.iterate_succ_apply' loopStep k ([], src)
    rw [hstep]
    unfold loopStep
    by_cases hc : (loopIter src k).2.take BUFFER_SIZE = []
    · simp only [hc, if_true, reduceIte]
      exact ih
    · simp only [hc, if_neg, reduceIte]
      rw [List.append_assoc, List.take_append_drop]
      exact ih

/-- Claim C10: after every iteration of the copy loop, the bytes written so
far are a prefix of the source (the unread remainder is the missing
suffix), so the destination length never exceeds the source length at any
point during the copy. -/
theorem copy_loop_invariant (src : List Nat) (k : Nat) :
    (loopIter src k).1 ++ (loopIter src k).2 = src ∧
    (∃ rest, (loopIter src k).1 ++ rest = src) ∧
    (loopIter src k).1.length ≤ src.length := by
  have key := loopIter_append src k
  refine ⟨key, ⟨(loopIter src k).2, key⟩, ?_⟩
  have hlen := congrArg List.length key
  simp only [List.length_append] at hlen
  omega

/-- I/O schedule of a short write: every `fread` succeeds in full, but
`fwrite` persists none of the bytes it was asked to write (for instance,
the disk is full) and reports that through its return value — which the
C code discards. -/
def shortWriteSched : Schedule :=
  ⟨fun _ avail => avail, fun _ _ => 0⟩

/-- A filesystem with a single one-byte file, everything writable. -/
def oneByteFS : FileSystem :=
  ⟨fun p => if p = "a.txt" then some [7] else none,
   fun _ => true, "No space left on device"⟩

/-- Claim C2 (refuted by the code): with a one-byte source whose single
`fwrite` persists 0 of the 1 requested byte, the loop still terminates
having read 1 byte but written 0 — the totals differ — and the process
nevertheless exits with code 0 and an empty destination file: the short
write is silently ignored (lines 28-30 never inspect `fwrite`'s return
value), not surfaced as a failure. -/
theorem short_write_silent_truncation :
    (runLoop shortWriteSched 0 [7]).2.1 = 1 ∧
    (runLoop shortWriteSched 0 [7]).2.2 = 0 ∧
    (runLoop shortWriteSched 0 [7]).1 = [] ∧
    (cMainWith shortWriteSched oneByteFS "backup" ["a.txt", "b.txt"]).exitCode = 0 ∧
    (cMainWith shortWriteSched oneByteFS "backup" ["a.txt", "b.txt"]).fs.files "b.txt"
      = some [] := by
  have hloop : runLoop shortWriteSched 0 [7] = ([], 1, 0) := by
    rw [runLoop]
    simp [readCount, writeCount, shortWriteSched, BUFFER_SIZE, runLoop_nil]
  refine ⟨by rw [hloop], by rw [hloop], by rw [hloop], ?_, ?_⟩
  · rw [cMainWith_pair]
    simp [runAndReport, backup_fileWith, oneByteFS]
  · rw [cMainWith_pair]
    simp [runAndReport, backup_fileWith, oneByteFS, FileSystem.setFile, hloop]

/-- I/O schedule of a failed read: every `fread` reports 0 bytes.  On a
non-empty source this cannot be end-of-file, so it models an I/O error,
which `fread` reports only through the short count (and the error flag the
C code never checks). -/
def readErrorSched : Schedule :=
  ⟨fun _ _ => 0, fun _ req => req⟩

/-- A filesystem with a single three-byte file, everything writable. -/
def threeByteFS : FileSystem :=
  ⟨fun p => if p = "data.txt" then some [1, 2, 3] else none,
   fun _ => true, "Input/output error"⟩

/-- Claim C3 (refuted by the code for mid-loop failures): with a three-byte
source whose very first `fread` fails (returns 0 bytes though 3 remain),
the loop exits as if at end-of-file, and the process prints the success
message, prints nothing to standard error and exits with code 0, leaving
an empty destination — the read error is reported as success, with no
error identifying the failing phase. -/
theorem read_error_reported_as_success :
    threeByteFS.files "data.txt" = some [1, 2, 3] ∧
    (cMainWith readErrorSched threeByteFS "backup" ["data.txt", "copy.txt"]).exitCode
      = 0 ∧
    (cMainWith readErrorSched threeByteFS "backup" ["data.txt", "copy.txt"]).stdoutLines
      = ["Backup successful from " ++ "data.txt" ++ " to " ++ "copy.txt"] ∧
    (cMainWith readErrorSched threeByteFS "backup" ["data.txt", "copy.txt"]).stderrLines
      = [] ∧
    (cMainWith readErrorSched threeByteFS "backup" ["data.txt", "copy.txt"]).fs.files
      "copy.txt" = some [] := by
  have hloop : runLoop readErrorSched 0 [1, 2, 3] = ([], 0, 0) := by
    rw [runLoop]
    simp [readCount, readErrorSched]
  refine ⟨by simp [threeByteFS], ?_, ?_, ?_, ?_⟩ <;>
  · rw [cMainWith_pair]
    simp [runAndReport, backup_fileWith, threeByteFS, FileSystem.setFile, hloop]
